import Mathlib

/-!
Shallow embedding of the lite3 client library (src/src/client.cpp,
src/src/smart_client.cpp, src/include/lite3/client.hpp,
src/include/lite3/smart_client.hpp) and proofs about its specification.

Modelling conventions:
* Bytes are `List Nat`; keys and HTTP targets are `String`.
* The network (TCP connect, HTTP write/read of boost::beast) is abstracted
  into a `Serve` function that threads an explicit server `Store` and either
  returns an HTTP response or signals an exception (`NetOutcome.exn`), which
  covers every `std::exception` the C++ try-block can catch (connect,
  resolve, write, read, HTTP parse).  Connection reuse / shutdown only
  manipulates socket state invisible to the claims and is not modelled.
* C++ `Result<T>` becomes `Except Error T`; `Result<void>` becomes
  `Except Error Unit`.
-/

namespace Lite3

/-- Error taxonomy, from `enum class ErrorCode` in client.hpp. -/
inductive ErrorCode where
  | ConnectionRefused
  | NetworkError
  | Timeout
  | BadRequest
  | NotFound
  | ServerError
  | SerializationError
  | Unknown
deriving DecidableEq, Repr

/-- The C++ `struct Error` of client.hpp: an `ErrorCode` plus a message string. -/
structure Error where
  code : ErrorCode
  message : String
deriving DecidableEq, Repr

/-- The C++ `Result<T>` / `Result<void>` of client.hpp, as an error sum. -/
abbrev Res (α : Type) := Except Error α

/-- Byte sequences (`std::vector<uint8_t>`). -/
abbrev Bytes := List Nat

/-- HTTP verbs used by the client (`http::verb::{get, put, delete_, post}`). -/
inductive Method where
  | get
  | put
  | delete
  | post
deriving DecidableEq, Repr

/-- The `(host, port)` endpoint of a single-node client. -/
abbrev Endpoint := String × Int

/-- An HTTP response as seen by `perform_request`: numeric status, optional
`Location` header, body bytes. -/
structure HttpResponse where
  status : Nat
  location : Option String
  body : Bytes
deriving DecidableEq, Repr

/-- Outcome of one network exchange: a parsed response, or an exception
(covering connect/resolve/write/read/parse failures caught by the
`catch (const std::exception&)` in `ClientImpl::perform_request`). -/
inductive NetOutcome where
  | response (r : HttpResponse)
  | exn (msg : String)
deriving DecidableEq, Repr

/-- Abstract server state threaded through requests (a path-indexed byte
store suffices for the claims). -/
abbrev Store := List (String × Bytes)

/-- The abstract network: given server state, endpoint, method, target and
body, produce the new server state and the outcome of the exchange. -/
abbrev Serve := Store → Endpoint → Method → String → Bytes → Store × NetOutcome

/-! ### std::stoi and ClientImpl::parse_location -/

/-- Digit run to a number, most significant first. -/
def digitsToNat : List Char → Nat → Nat
  | [], acc => acc
  | c :: rest, acc => digitsToNat rest (acc * 10 + (c.toNat - '0'.toNat))

/-- Whitespace recognized by `std::stoi` (via `isspace`). -/
def isSpaceChar (c : Char) : Bool :=
  c = ' ' || c = '\t' || c = '\n' || c = '\x0b' || c = '\x0c' || c = '\x0d'

/-- Model of `std::stoi` on a char sequence: skip leading whitespace, optional sign,
then at least one digit (trailing junk ignored); `none` models the
`invalid_argument` / `out_of_range` exceptions (caught by `parse_location`
and turned into failure). -/
def stoiOpt (s : List Char) : Option Int :=
  let s₁ := s.dropWhile isSpaceChar
  let (sign, s₂) : Int × List Char :=
    match s₁ with
    | '-' :: rest => (-1, rest)
    | '+' :: rest => (1, rest)
    | _ => (1, s₁)
  let ds := s₂.takeWhile Char.isDigit
  if ds = [] then none
  else
    let v : Int := sign * (digitsToNat ds 0 : Nat)
    if v < -2147483648 ∨ 2147483647 < v then none else some v

/-- Embedding of `ClientImpl::parse_location` (client.cpp lines 34–57): requires the
`http://` scheme; `port_sep` is the first `':'` after the scheme (failure
when absent); `path_sep` is the first `'/'` at or after `port_sep`; the port
substring between them must satisfy `std::stoi`; the target is the remainder
from `path_sep`, defaulting to `"/"`. -/
def parse_location (loc : List Char) : Option (List Char × Int × List Char) :=
  if loc.take 7 = "http://".data then
    match (loc.drop 7).dropWhile (fun c => c ≠ ':') with
    | [] => none
    | _ :: tail =>
      match stoiOpt (tail.takeWhile (fun c => c ≠ '/')) with
      | none => none
      | some p =>
        some ((loc.drop 7).takeWhile (fun c => c ≠ ':'), p,
          if tail.dropWhile (fun c => c ≠ '/') = [] then "/".data
          else tail.dropWhile (fun c => c ≠ '/'))
  else none

/-! ### ClientImpl::perform_request -/

/-- Embedding of `ClientImpl::perform_request` (client.cpp lines 62–141).  Depth guard
first; then one network exchange; 200 returns the body, 307 follows the
parsed `Location` with a fresh one-shot client at depth+1, 404 maps to
`NotFound`, anything else to `ServerError`; an exception maps to
`NetworkError` with the exception text. -/
def perform_request (serve : Serve) (host : String) (port : Int)
    (method : Method) (target : String) (body : Bytes)
    (store : Store) (depth : Nat) : Store × Res Bytes :=
  if _h : depth > 5 then
    (store, .error ⟨.NetworkError, "Too many redirects"⟩)
  else
    match serve store (host, port) method target body with
    | (store', .exn msg) => (store', .error ⟨.NetworkError, msg⟩)
    | (store', .response r) =>
      if r.status = 200 then
        (store', .ok r.body)
      else if r.status = 307 then
        match r.location with
        | some loc =>
          match parse_location loc.data with
          | some (h2, p2, t2) =>
            perform_request serve (String.mk h2) p2 method (String.mk t2)
              body store' (depth + 1)
          | none => (store', .error ⟨.ServerError, "Invalid Redirect Location"⟩)
        | none => (store', .error ⟨.ServerError, "Invalid Redirect Location"⟩)
      else if r.status = 404 then
        (store', .error ⟨.NotFound, "Key not found"⟩)
      else
        (store', .error ⟨.ServerError, "Server error: " ++ toString r.status⟩)
termination_by 6 - depth
decreasing_by omega

/-! ### Client facade (client.cpp lines 166–262) -/

namespace Client

/-- Embedding of `Client::put(key, value)` (client.cpp lines 166–178). -/
def put (ep : Endpoint) (serve : Serve) (store : Store)
    (key : String) (value : Bytes) : Store × Res Unit :=
  if key = "" then (store, .error ⟨.BadRequest, "Key cannot be empty"⟩)
  else
    match perform_request serve ep.1 ep.2 .put ("/kv/" ++ key) value store 0 with
    | (s, .error e) => (s, .error e)
    | (s, .ok _) => (s, .ok ())

/-- Embedding of `Client::get(key)` (client.cpp lines 195–205). -/
def get (ep : Endpoint) (serve : Serve) (store : Store)
    (key : String) : Store × Res Bytes :=
  if key = "" then (store, .error ⟨.BadRequest, "Key cannot be empty"⟩)
  else perform_request serve ep.1 ep.2 .get ("/kv/" ++ key) [] store 0

/-- Embedding of `Client::del(key)` (client.cpp lines 207–222): a `NotFound` error from
the engine is mapped to success. -/
def del (ep : Endpoint) (serve : Serve) (store : Store)
    (key : String) : Store × Res Unit :=
  if key = "" then (store, .error ⟨.BadRequest, "Key cannot be empty"⟩)
  else
    match perform_request serve ep.1 ep.2 .delete ("/kv/" ++ key) [] store 0 with
    | (s, .error e) =>
      if e.code = .NotFound then (s, .ok ()) else (s, .error e)
    | (s, .ok _) => (s, .ok ())

/-- Embedding of `Client::patch_int(key, field, value)` (client.cpp lines 224–238). -/
def patch_int (ep : Endpoint) (serve : Serve) (store : Store)
    (key field : String) (value : Int) : Store × Res Unit :=
  if key = "" then (store, .error ⟨.BadRequest, "Key cannot be empty"⟩)
  else
    let path := "/kv/" ++ key ++ "?op=set_int&field=" ++ field ++ "&val=" ++ toString value
    match perform_request serve ep.1 ep.2 .post path [] store 0 with
    | (s, .error e) => (s, .error e)
    | (s, .ok _) => (s, .ok ())

/-- Embedding of `Client::patch_str(key, field, value)` (client.cpp lines 240–255). -/
def patch_str (ep : Endpoint) (serve : Serve) (store : Store)
    (key field value : String) : Store × Res Unit :=
  if key = "" then (store, .error ⟨.BadRequest, "Key cannot be empty"⟩)
  else
    let path := "/kv/" ++ key ++ "?op=set_str&field=" ++ field ++ "&val=" ++ value
    match perform_request serve ep.1 ep.2 .post path [] store 0 with
    | (s, .error e) => (s, .error e)
    | (s, .ok _) => (s, .ok ())

/-- Embedding of `Client::impl_raw_get(path)` (client.cpp lines 257–262): raw GET with no
`/kv/` prefix and no key validation. -/
def impl_raw_get (ep : Endpoint) (serve : Serve) (store : Store)
    (path : String) : Store × Res Bytes :=
  perform_request serve ep.1 ep.2 .get path [] store 0

end Client

/-! ### JSON values (nlohmann::json, integer numbers only) -/

/-- JSON values as produced by `nlohmann::json::parse` for the topology
document.  Only integer numbers appear in `/cluster/map`. -/
inductive Json where
  | null
  | bool (b : Bool)
  | num (n : Int)
  | str (s : String)
  | arr (xs : List Json)
  | obj (fields : List (String × Json))

/-- Field lookup in a JSON object (first match). -/
def lookupField : List (String × Json) → String → Option Json
  | [], _ => none
  | (k, v) :: rest, key => if k = key then some v else lookupField rest key

/-- C++ `static_cast` to `uint32_t` from a JSON integer. -/
def intToU32 (n : Int) : Nat := (n % (2 ^ 32 : Int)).toNat

/-! ### Consistent-hash ring -/

/-- Modelled from the spec: `lite3/ring.hpp` (class `lite3::ConsistentHash`)
is included by smart_client.hpp but is not under src/.  Spec §3/§4.1: the
ring state is a set of non-zero node ids, each placed at position
`hash32(id)` on the 32-bit modular ring; the hash function itself is
unspecified ("the source does not document which function that is"), so it
is a parameter `hN` here.  We keep the ids as a duplicate-free list. -/
abbrev ConsistentHash := List Nat

/-- Ring position of a node id under node-hash `hN` (spec §3: a node is
present at exactly one position equal to `hash32(id)`). -/
def ringPos (hN : Nat → Nat) (id : Nat) : Nat := hN id % 2 ^ 32

/-- Modelled from the spec: `ConsistentHash::add_node(id)` (spec §4.1)
"inserts id at position hash32(id); idempotent for the same id". -/
def ConsistentHash.add_node (ring : ConsistentHash) (id : Nat) : ConsistentHash :=
  if id ∈ ring then ring else ring ++ [id]

/-- Node of minimal (position, id) in a candidate list (spec §3: ties are
broken by lowest id). -/
def pickMinNode (hN : Nat → Nat) (cands : List Nat) : Option Nat :=
  cands.foldl
    (fun acc n =>
      match acc with
      | none => some n
      | some m =>
        if ringPos hN n < ringPos hN m ∨ (ringPos hN n = ringPos hN m ∧ n < m)
        then some n else some m)
    none

/-- Modelled from the spec: `ConsistentHash::get_node(key)` (spec §4.1)
"returns the node whose position is the smallest one ≥ hash32(key_bytes),
wrapping at 2^32. Undefined when the ring is empty" — on an empty ring we
return 0 (the reserved "absent" id, spec §3). `hK` is the key hash. -/
def ConsistentHash.get_node (hN : Nat → Nat) (hK : String → Nat)
    (ring : ConsistentHash) (key : String) : Nat :=
  let h := hK key % 2 ^ 32
  match pickMinNode hN (ring.filter (fun n => h ≤ ringPos hN n)) with
  | some n => n
  | none => (pickMinNode hN ring).getD 0

/-! ### SmartClient (smart_client.cpp) -/

/-- Routing state of `SmartClient`: the ring and the
`std::map<uint32_t, std::shared_ptr<Client>>` from node id to client,
kept as an id-sorted association list mapping ids to endpoints (a `Client`
is determined by the `(host, port)` it was constructed with). -/
structure SmartState where
  ring : ConsistentHash
  clients : List (Nat × Endpoint)
deriving DecidableEq

/-- Model of `std::map::operator[]` followed by assignment: ordered
insert-or-overwrite by node id. -/
def insertClient : List (Nat × Endpoint) → Nat → Endpoint → List (Nat × Endpoint)
  | [], id, ep => [(id, ep)]
  | (i, e) :: rest, id, ep =>
    if id < i then (id, ep) :: (i, e) :: rest
    else if id = i then (id, ep) :: rest
    else (i, e) :: insertClient rest id ep

/-- Model of `std::map::find` on the client map. -/
def findClient : List (Nat × Endpoint) → Nat → Option Endpoint
  | [], _ => none
  | (i, e) :: rest, id => if i = id then some e else findClient rest id

/-- Extraction of one peer object (smart_client.cpp lines 59–61):
`p.value("id", 0u)`, `p.value("host", "127.0.0.1")`,
`p.value("http_port", 8080)`.  nlohmann's `value` throws when `p` is not an
object or when a present field has an incompatible type (arithmetic targets
accept numbers and booleans; string targets accept only strings); a missing
field yields the default.  `Except.error` models the thrown exception. -/
def extractPeer (p : Json) : Except String (Nat × String × Int) :=
  match p with
  | .obj fields =>
    match
      (match lookupField fields "id" with
       | none => Except.ok 0
       | some (.num n) => Except.ok (intToU32 n)
       | some (.bool b) => Except.ok (if b then 1 else 0)
       | some _ => Except.error "type error reading peer id") with
    | .error msg => .error msg
    | .ok id =>
      match
        (match lookupField fields "host" with
         | none => Except.ok "127.0.0.1"
         | some (.str s) => Except.ok s
         | some _ => Except.error "type error reading peer host") with
      | .error msg => .error msg
      | .ok host =>
        match
          (match lookupField fields "http_port" with
           | none => Except.ok (8080 : Int)
           | some (.num n) => Except.ok n
           | some (.bool b) => Except.ok (if b then 1 else 0)
           | some _ => Except.error "type error reading peer http_port") with
        | .error msg => .error msg
        | .ok port => .ok (id, host, port)
  | _ => .error "cannot use value() with a non-object"

/-- The peer loop of `refresh_topology_unsafe` (smart_client.cpp lines
58–69), mutating the already-cleared state in place: each peer is
extracted (a throw aborts the loop, leaving the partial state) and, when
`id != 0`, added to the ring and the client map. -/
def addPeers (st : SmartState) : List Json → SmartState × Res Unit
  | [] => (st, .ok ())
  | p :: rest =>
    match extractPeer p with
    | .error msg => (st, .error ⟨.NetworkError, msg⟩)
    | .ok (id, host, port) =>
      if id ≠ 0 then
        addPeers
          ⟨st.ring.add_node id, insertClient st.clients id (host, port)⟩ rest
      else addPeers st rest

/-- Embedding of `j.contains("peers") && j["peers"].is_array()` (smart_client.cpp line 57). -/
def getPeersArray (j : Json) : Option (List Json) :=
  match j with
  | .obj fields =>
    match lookupField fields "peers" with
    | some (.arr ps) => some ps
    | _ => none
  | _ => none

namespace SmartClient

/-- Embedding of `SmartClient::refresh_topology_unsafe` (smart_client.cpp lines 20–75).
The seed fetch result (of `Client::impl_raw_get("/cluster/map")`) and the
JSON text parser are passed in; `parseJson = none` models a
`json::parse` throw, caught by the surrounding try and mapped to
`NetworkError`.  On a successful parse the code resets `ring_` and clears
`clients_` in place *before* iterating peers. -/
def refresh_topology_unsafe (st : SmartState) (fetch : Res Bytes)
    (parseJson : Bytes → Option Json) : SmartState × Res Unit :=
  match fetch with
  | .error e => (st, .error e)
  | .ok body =>
    match parseJson body with
    | none => (st, .error ⟨.NetworkError, "json parse error"⟩)
    | some j =>
      let cleared : SmartState := ⟨[], []⟩
      match getPeersArray j with
      | none => (cleared, .ok ())
      | some ps => addPeers cleared ps

/-- Embedding of `SmartClient::get_client_for_key` (smart_client.cpp lines 77–88):
route via `ring_.get_node`, fall back to `clients_.begin()` (the lowest id,
the map being ordered) when the routed id is absent, `nullptr` when the map
is empty. -/
def get_client_for_key (hN : Nat → Nat) (hK : String → Nat)
    (st : SmartState) (key : String) : Option Endpoint :=
  match findClient st.clients (ConsistentHash.get_node hN hK st.ring key) with
  | some ep => some ep
  | none =>
    match st.clients with
    | [] => none
    | e :: _ => some e.2

/-- Embedding of `SmartClient::put` (smart_client.cpp lines 90–95). -/
def put (hN : Nat → Nat) (hK : String → Nat) (st : SmartState)
    (serve : Serve) (store : Store) (key : String) (value : Bytes) :
    Store × Res Unit :=
  match get_client_for_key hN hK st key with
  | none => (store, .error ⟨.NetworkError, "No nodes available"⟩)
  | some ep => Client.put ep serve store key value

/-- Embedding of `SmartClient::get` (smart_client.cpp lines 105–110). -/
def get (hN : Nat → Nat) (hK : String → Nat) (st : SmartState)
    (serve : Serve) (store : Store) (key : String) : Store × Res Bytes :=
  match get_client_for_key hN hK st key with
  | none => (store, .error ⟨.NetworkError, "No nodes available"⟩)
  | some ep => Client.get ep serve store key

/-- Embedding of `SmartClient::del` (smart_client.cpp lines 112–117). -/
def del (hN : Nat → Nat) (hK : String → Nat) (st : SmartState)
    (serve : Serve) (store : Store) (key : String) : Store × Res Unit :=
  match get_client_for_key hN hK st key with
  | none => (store, .error ⟨.NetworkError, "No nodes available"⟩)
  | some ep => Client.del ep serve store key

/-- Embedding of `SmartClient::patch_int` (smart_client.cpp lines 119–125). -/
def patch_int (hN : Nat → Nat) (hK : String → Nat) (st : SmartState)
    (serve : Serve) (store : Store) (key field : String) (value : Int) :
    Store × Res Unit :=
  match get_client_for_key hN hK st key with
  | none => (store, .error ⟨.NetworkError, "No nodes available"⟩)
  | some ep => Client.patch_int ep serve store key field value

/-- Embedding of `SmartClient::patch_str` (smart_client.cpp lines 127–134). -/
def patch_str (hN : Nat → Nat) (hK : String → Nat) (st : SmartState)
    (serve : Serve) (store : Store) (key field value : String) :
    Store × Res Unit :=
  match get_client_for_key hN hK st key with
  | none => (store, .error ⟨.NetworkError, "No nodes available"⟩)
  | some ep => Client.patch_str ep serve store key field value

end SmartClient

/-! ### A conforming key–value test server -/

/-- Association-list lookup on the store. -/
def lookupStore : Store → String → Option Bytes
  | [], _ => none
  | (k, v) :: rest, key => if k = key then some v else lookupStore rest key

/-- Association-list insert-or-overwrite on the store. -/
def updateStore : Store → String → Bytes → Store
  | [], key, v => [(key, v)]
  | (k, w) :: rest, key, v =>
    if k = key then (key, v) :: rest else (k, w) :: updateStore rest key v

/-- Association-list removal on the store. -/
def removeStore (s : Store) (key : String) : Store :=
  s.filter (fun kv => kv.1 ≠ key)

/-- A conforming in-memory server (spec §8): PUT stores the request body
under the target and answers 200; GET serves the stored body or 404;
DELETE removes the target answering 200, or 404 when absent; POST answers
200.  No redirects, no failures. -/
def kvServe : Serve := fun store _ m target body =>
  match m with
  | .put => (updateStore store target body, .response ⟨200, none, []⟩)
  | .get =>
    match lookupStore store target with
    | some v => (store, .response ⟨200, none, v⟩)
    | none => (store, .response ⟨404, none, []⟩)
  | .delete =>
    match lookupStore store target with
    | some _ => (removeStore store target, .response ⟨200, none, []⟩)
    | none => (store, .response ⟨404, none, []⟩)
  | .post => (store, .response ⟨200, none, []⟩)

/-! ### Unfolding lemmas for the request engine -/

/-- One step of `perform_request` when the exchange yields a response and
the depth guard does not fire. -/
theorem perform_request_step (serve : Serve) (host : String) (port : Int) (m : Method)
    (target : String) (body : Bytes) (store s' : Store) (r : HttpResponse) (depth : Nat)
    (hd : depth ≤ 5) (hs : serve store (host, port) m target body = (s', .response r)) :
    perform_request serve host port m target body store depth =
      (if r.status = 200 then (s', .ok r.body)
       else if r.status = 307 then
         match r.location with
         | some loc =>
           match parse_location loc.data with
           | some (h2, p2, t2) =>
             perform_request serve (String.mk h2) p2 m (String.mk t2) body s' (depth + 1)
           | none => (s', .error ⟨.ServerError, "Invalid Redirect Location"⟩)
         | none => (s', .error ⟨.ServerError, "Invalid Redirect Location"⟩)
       else if r.status = 404 then (s', .error ⟨.NotFound, "Key not found"⟩)
       else (s', .error ⟨.ServerError, "Server error: " ++ toString r.status⟩)) := by
  conv_lhs => rw [perform_request]
  rw [dif_neg (by omega)]
  rw [hs]

/-- One step of `perform_request` when the exchange raises an exception. -/
theorem perform_request_exn (serve : Serve) (host : String) (port : Int) (m : Method)
    (target : String) (body : Bytes) (store s' : Store) (msg : String) (depth : Nat)
    (hd : depth ≤ 5) (hs : serve store (host, port) m target body = (s', .exn msg)) :
    perform_request serve host port m target body store depth =
      (s', .error ⟨.NetworkError, msg⟩) := by
  conv_lhs => rw [perform_request]
  rw [dif_neg (by omega)]
  rw [hs]

/-- Behavior of `perform_request` when the depth guard fires. -/
theorem perform_request_guard (serve : Serve) (host : String) (port : Int) (m : Method)
    (target : String) (body : Bytes) (store : Store) (depth : Nat) (hd : depth > 5) :
    perform_request serve host port m target body store depth =
      (store, .error ⟨.NetworkError, "Too many redirects"⟩) := by
  rw [perform_request]
  rw [dif_pos hd]

/-- A server that always answers with the fixed response `r`, leaving its
state untouched. -/
def constServe (r : HttpResponse) : Serve := fun store _ _ _ _ => (store, .response r)

/-- A numeric tag for a method, used by the redirect-chain test server so
that the final 200 body witnesses which method reached it. -/
def mcode : Method → Nat
  | .get => 0
  | .put => 1
  | .delete => 2
  | .post => 3

/-- The `Location` values issued by the redirect-chain test server. -/
def chainLoc : Int → String
  | 1 => "http://chain:1/t"
  | 2 => "http://chain:2/t"
  | 3 => "http://chain:3/t"
  | 4 => "http://chain:4/t"
  | 5 => "http://chain:5/t"
  | 6 => "http://chain:6/t"
  | _ => "http://chain:99/t"

/-- A test server realizing a redirect chain of length `n`: the node at
port `i < n` answers 307 with `Location: http://chain:<i+1>/t`; the node at
port `n` answers 200 with a body recording the received method and body. -/
def chainServe (n : Nat) : Serve := fun store ep m _ body =>
  if ep.2 < (n : Int) then (store, .response ⟨307, some (chainLoc (ep.2 + 1)), []⟩)
  else (store, .response ⟨200, none, mcode m :: body⟩)

/-! ### C5, C6, C7: response classification and redirects -/

/-- C5.  Response classification of the request engine: a 200 response
yields `Ok` with the body bytes, a 404 yields `Err(NotFound, "Key not
found")`, and any status other than 200, 307 and 404 yields
`Err(ServerError, "Server error: <code>")` with the numeric code in the
message. -/
theorem classify_response (r : HttpResponse) (host : String) (port : Int)
    (m : Method) (target : String) (body : Bytes) (store : Store) :
    (r.status = 200 →
      perform_request (constServe r) host port m target body store 0 = (store, .ok r.body))
    ∧ (r.status = 404 →
      perform_request (constServe r) host port m target body store 0 =
        (store, .error ⟨.NotFound, "Key not found"⟩))
    ∧ (r.status ≠ 200 → r.status ≠ 307 → r.status ≠ 404 →
      perform_request (constServe r) host port m target body store 0 =
        (store, .error ⟨.ServerError, "Server error: " ++ toString r.status⟩)) := by
  refine ⟨fun h200 => ?_, fun h404 => ?_, fun h200 h307 h404 => ?_⟩ <;>
    rw [perform_request_step (constServe r) host port m target body store store r 0
      (by omega) rfl]
  · simp [h200]
  · simp [h404]
  · simp [h200, h307, h404]

/-- Witness for C5 at concrete responses of status 200, 404 and 500. -/
theorem classify_response_witness :
    perform_request (constServe ⟨200, none, [9]⟩) "h" 1 .get "/t" [] [] 0 = ([], .ok [9])
    ∧ perform_request (constServe ⟨404, none, []⟩) "h" 1 .get "/t" [] [] 0 =
        ([], .error ⟨.NotFound, "Key not found"⟩)
    ∧ perform_request (constServe ⟨500, none, []⟩) "h" 1 .get "/t" [] [] 0 =
        ([], .error ⟨.ServerError, "Server error: 500"⟩) :=
  ⟨(classify_response ⟨200, none, [9]⟩ "h" 1 .get "/t" [] []).1 rfl,
   (classify_response ⟨404, none, []⟩ "h" 1 .get "/t" [] []).2.1 rfl,
   by
     have h := (classify_response ⟨500, none, []⟩ "h" 1 .get "/t" [] []).2.2
       (by decide) (by decide) (by decide)
     simpa using h⟩

/-- C6.  Redirect depth is capped at 5: a chain of at most five 307
redirects is followed, re-issuing the same method and body against the
endpoint named in each `Location` (the final 200 body records them), while
a chain of six redirects yields `Err(NetworkError, "Too many redirects")`. -/
theorem redirect_depth_cap (n : Nat) (m : Method) (body : Bytes) (store : Store) :
    (n ≤ 5 →
      perform_request (chainServe n) "chain" 0 m "/t" body store 0 =
        (store, .ok (mcode m :: body)))
    ∧ perform_request (chainServe 6) "chain" 0 m "/t" body store 0 =
        (store, .error ⟨.NetworkError, "Too many redirects"⟩) := by
  constructor
  · intro hn
    interval_cases n
    · rw [perform_request_step (chainServe 0) "chain" 0 m "/t" body store store
        ⟨200, none, mcode m :: body⟩ 0 (by omega) rfl]
      rfl
    · rw [perform_request_step (chainServe 1) "chain" 0 m "/t" body store store
        ⟨307, some (chainLoc 1), []⟩ 0 (by omega) rfl]
      show perform_request (chainServe 1) "chain" 1 m "/t" body store 1 = _
      rw [perform_request_step (chainServe 1) "chain" 1 m "/t" body store store
        ⟨200, none, mcode m :: body⟩ 1 (by omega) rfl]
      rfl
    · rw [perform_request_step (chainServe 2) "chain" 0 m "/t" body store store
        ⟨307, some (chainLoc 1), []⟩ 0 (by omega) rfl]
      show perform_request (chainServe 2) "chain" 1 m "/t" body store 1 = _
      rw [perform_request_step (chainServe 2) "chain" 1 m "/t" body store store
        ⟨307, some (chainLoc 2), []⟩ 1 (by omega) rfl]
      show perform_request (chainServe 2) "chain" 2 m "/t" body store 2 = _
      rw [perform_request_step (chainServe 2) "chain" 2 m "/t" body store store
        ⟨200, none, mcode m :: body⟩ 2 (by omega) rfl]
      rfl
    · rw [perform_request_step (chainServe 3) "chain" 0 m "/t" body store store
        ⟨307, some (chainLoc 1), []⟩ 0 (by omega) rfl]
      show perform_request (chainServe 3) "chain" 1 m "/t" body store 1 = _
      rw [perform_request_step (chainServe 3) "chain" 1 m "/t" body store store
        ⟨307, some (chainLoc 2), []⟩ 1 (by omega) rfl]
      show perform_request (chainServe 3) "chain" 2 m "/t" body store 2 = _
      rw [perform_request_step (chainServe 3) "chain" 2 m "/t" body store store
        ⟨307, some (chainLoc 3), []⟩ 2 (by omega) rfl]
      show perform_request (chainServe 3) "chain" 3 m "/t" body store 3 = _
      rw [perform_request_step (chainServe 3) "chain" 3 m "/t" body store store
        ⟨200, none, mcode m :: body⟩ 3 (by omega) rfl]
      rfl
    · rw [perform_request_step (chainServe 4) "chain" 0 m "/t" body store store
        ⟨307, some (chainLoc 1), []⟩ 0 (by omega) rfl]
      show perform_request (chainServe 4) "chain" 1 m "/t" body store 1 = _
      rw [perform_request_step (chainServe 4) "chain" 1 m "/t" body store store
        ⟨307, some (chainLoc 2), []⟩ 1 (by omega) rfl]
      show perform_request (chainServe 4) "chain" 2 m "/t" body store 2 = _
      rw [perform_request_step (chainServe 4) "chain" 2 m "/t" body store store
        ⟨307, some (chainLoc 3), []⟩ 2 (by omega) rfl]
      show perform_request (chainServe 4) "chain" 3 m "/t" body store 3 = _
      rw [perform_request_step (chainServe 4) "chain" 3 m "/t" body store store
        ⟨307, some (chainLoc 4), []⟩ 3 (by omega) rfl]
      show perform_request (chainServe 4) "chain" 4 m "/t" body store 4 = _
      rw [perform_request_step (chainServe 4) "chain" 4 m "/t" body store store
        ⟨200, none, mcode m :: body⟩ 4 (by omega) rfl]
      rfl
    · rw [perform_request_step (chainServe 5) "chain" 0 m "/t" body store store
        ⟨307, some (chainLoc 1), []⟩ 0 (by omega) rfl]
      show perform_request (chainServe 5) "chain" 1 m "/t" body store 1 = _
      rw [perform_request_step (chainServe 5) "chain" 1 m "/t" body store store
        ⟨307, some (chainLoc 2), []⟩ 1 (by omega) rfl]
      show perform_request (chainServe 5) "chain" 2 m "/t" body store 2 = _
      rw [perform_request_step (chainServe 5) "chain" 2 m "/t" body store store
        ⟨307, some (chainLoc 3), []⟩ 2 (by omega) rfl]
      show perform_request (chainServe 5) "chain" 3 m "/t" body store 3 = _
      rw [perform_request_step (chainServe 5) "chain" 3 m "/t" body store store
        ⟨307, some (chainLoc 4), []⟩ 3 (by omega) rfl]
      show perform_request (chainServe 5) "chain" 4 m "/t" body store 4 = _
      rw [perform_request_step (chainServe 5) "chain" 4 m "/t" body store store
        ⟨307, some (chainLoc 5), []⟩ 4 (by omega) rfl]
      show perform_request (chainServe 5) "chain" 5 m "/t" body store 5 = _
      rw [perform_request_step (chainServe 5) "chain" 5 m "/t" body store store
        ⟨200, none, mcode m :: body⟩ 5 (by omega) rfl]
      rfl
  · rw [perform_request_step (chainServe 6) "chain" 0 m "/t" body store store
      ⟨307, some (chainLoc 1), []⟩ 0 (by omega) rfl]
    show perform_request (chainServe 6) "chain" 1 m "/t" body store 1 = _
    rw [perform_request_step (chainServe 6) "chain" 1 m "/t" body store store
      ⟨307, some (chainLoc 2), []⟩ 1 (by omega) rfl]
    show perform_request (chainServe 6) "chain" 2 m "/t" body store 2 = _
    rw [perform_request_step (chainServe 6) "chain" 2 m "/t" body store store
      ⟨307, some (chainLoc 3), []⟩ 2 (by omega) rfl]
    show perform_request (chainServe 6) "chain" 3 m "/t" body store 3 = _
    rw [perform_request_step (chainServe 6) "chain" 3 m "/t" body store store
      ⟨307, some (chainLoc 4), []⟩ 3 (by omega) rfl]
    show perform_request (chainServe 6) "chain" 4 m "/t" body store 4 = _
    rw [perform_request_step (chainServe 6) "chain" 4 m "/t" body store store
      ⟨307, some (chainLoc 5), []⟩ 4 (by omega) rfl]
    show perform_request (chainServe 6) "chain" 5 m "/t" body store 5 = _
    rw [perform_request_step (chainServe 6) "chain" 5 m "/t" body store store
      ⟨307, some (chainLoc 6), []⟩ 5 (by omega) rfl]
    show perform_request (chainServe 6) "chain" 6 m "/t" body store 6 = _
    rw [perform_request_guard (chainServe 6) "chain" 6 m "/t" body store 6 (by omega)]

/-- Witness for C6: a GET with body `[7]` through a 5-redirect chain
succeeds; through a 6-redirect chain it fails with "Too many redirects". -/
theorem redirect_depth_cap_witness :
    perform_request (chainServe 5) "chain" 0 .get "/t" [7] [] 0 = ([], .ok [0, 7])
    ∧ perform_request (chainServe 6) "chain" 0 .get "/t" [7] [] 0 =
        ([], .error ⟨.NetworkError, "Too many redirects"⟩) :=
  ⟨(redirect_depth_cap 5 .get [7] []).1 (by omega),
   (redirect_depth_cap 5 .get [7] []).2⟩

/-- C7.  On a 307 response with a missing `Location` header, or with a
`Location` the parser rejects, the engine returns `Err(ServerError,
"Invalid Redirect Location")` without re-issuing the request: the returned
server state is exactly the state after the single exchange. -/
theorem invalid_redirect_location (serve : Serve) (host : String) (port : Int)
    (m : Method) (target : String) (body : Bytes) (store s' : Store) (r : HttpResponse)
    (hs : serve store (host, port) m target body = (s', .response r))
    (h307 : r.status = 307)
    (hloc : r.location = none ∨
      ∃ loc, r.location = some loc ∧ parse_location loc.data = none) :
    perform_request serve host port m target body store 0 =
      (s', .error ⟨.ServerError, "Invalid Redirect Location"⟩) := by
  rw [perform_request_step serve host port m target body store s' r 0 (by omega) hs]
  rcases hloc with hnone | ⟨loc, hsome, hparse⟩
  · simp [h307, hnone]
  · simp [h307, hsome, hparse]

/-- Witness for C7: a 307 with no `Location`, and a 307 whose `Location`
lacks the scheme, both at a server that marks its state on each exchange
(the single mark shows no request was re-issued). -/
theorem invalid_redirect_location_witness :
    perform_request
      (fun s _ _ _ _ => (("hit", []) :: s, .response ⟨307, none, []⟩))
      "h" 1 .get "/t" [] [] 0 =
      ([("hit", [])], .error ⟨.ServerError, "Invalid Redirect Location"⟩)
    ∧ perform_request
        (fun s _ _ _ _ => (("hit", []) :: s, .response ⟨307, some "nonsense", []⟩))
        "h" 1 .get "/t" [] [] 0 =
        ([("hit", [])], .error ⟨.ServerError, "Invalid Redirect Location"⟩) :=
  ⟨invalid_redirect_location _ "h" 1 .get "/t" [] [] [("hit", [])]
      ⟨307, none, []⟩ rfl rfl (Or.inl rfl),
   invalid_redirect_location _ "h" 1 .get "/t" [] [] [("hit", [])]
      ⟨307, some "nonsense", []⟩ rfl rfl (Or.inr ⟨"nonsense", rfl, by decide⟩)⟩

/-! ### Store lemmas -/

theorem lookupStore_update (s : Store) (k : String) (v : Bytes) :
    lookupStore (updateStore s k v) k = some v := by
  induction s with
  | nil => simp [updateStore, lookupStore]
  | cons kv rest ih =>
    obtain ⟨k', w⟩ := kv
    by_cases h : k' = k
    · simp [updateStore, lookupStore, h]
    · simp [updateStore, lookupStore, h, ih]

theorem lookupStore_remove (s : Store) (k : String) :
    lookupStore (removeStore s k) k = none := by
  induction s with
  | nil => simp [removeStore, lookupStore]
  | cons kv rest ih =>
    obtain ⟨k', w⟩ := kv
    by_cases h : k' = k
    · simpa [removeStore, lookupStore, h] using ih
    · simpa [removeStore, lookupStore, h] using ih

/-! ### C2: put/get round trip -/

/-- C2.  Put/get round trip against the conforming store: for non-empty `k`
and `v`, `put(k, v)` succeeds and a subsequent `get(k)` returns exactly the
bytes `v`. -/
theorem put_get_roundtrip (ep : Endpoint) (store : Store) (k : String) (v : Bytes)
    (hk : k ≠ "") (_hv : v ≠ []) :
    (Client.put ep kvServe store k v).2 = .ok ()
    ∧ (Client.get ep kvServe (Client.put ep kvServe store k v).1 k).2 = .ok v := by
  have hput : Client.put ep kvServe store k v =
      (updateStore store ("/kv/" ++ k) v, .ok ()) := by
    rw [Client.put, if_neg hk,
      perform_request_step kvServe ep.1 ep.2 .put ("/kv/" ++ k) v store
        (updateStore store ("/kv/" ++ k) v) ⟨200, none, []⟩ 0 (by omega) rfl]
    rfl
  have hget : Client.get ep kvServe (updateStore store ("/kv/" ++ k) v) k =
      (updateStore store ("/kv/" ++ k) v, .ok v) := by
    rw [Client.get, if_neg hk,
      perform_request_step kvServe ep.1 ep.2 .get ("/kv/" ++ k) []
        (updateStore store ("/kv/" ++ k) v) (updateStore store ("/kv/" ++ k) v)
        ⟨200, none, v⟩ 0 (by omega)
        (by simp only [kvServe]; rw [lookupStore_update])]
    rfl
  rw [hput]
  exact ⟨rfl, by rw [hget]⟩

/-- Witness for C2 at `k = "a"`, `v = [1, 2]`. -/
theorem put_get_roundtrip_witness :
    (Client.put ("h", 1) kvServe [] "a" [1, 2]).2 = .ok ()
    ∧ (Client.get ("h", 1) kvServe (Client.put ("h", 1) kvServe [] "a" [1, 2]).1 "a").2 =
        .ok [1, 2] :=
  put_get_roundtrip ("h", 1) [] "a" [1, 2] (by decide) (by decide)

/-! ### C4: delete maps 404 to success and is idempotent -/

/-- C4.  `del` treats 404 as success: against the conforming store two
consecutive `del(k)` both return success, and against an arbitrary server a
`NotFound` error from the engine becomes success while every other engine
outcome is passed through unchanged. -/
theorem del_idempotent (ep : Endpoint) (k : String) (hk : k ≠ "") :
    (∀ store : Store,
      (Client.del ep kvServe store k).2 = .ok ()
      ∧ (Client.del ep kvServe (Client.del ep kvServe store k).1 k).2 = .ok ())
    ∧ (∀ (serve : Serve) (store s : Store) (e : Error),
        perform_request serve ep.1 ep.2 .delete ("/kv/" ++ k) [] store 0 = (s, .error e) →
        Client.del ep serve store k =
          (s, if e.code = .NotFound then .ok () else .error e))
    ∧ (∀ (serve : Serve) (store s : Store) (b : Bytes),
        perform_request serve ep.1 ep.2 .delete ("/kv/" ++ k) [] store 0 = (s, .ok b) →
        Client.del ep serve store k = (s, .ok ())) := by
  have habsent : ∀ s : Store, lookupStore s ("/kv/" ++ k) = none →
      Client.del ep kvServe s k = (s, .ok ()) := by
    intro s h
    rw [Client.del, if_neg hk,
      perform_request_step kvServe ep.1 ep.2 .delete ("/kv/" ++ k) [] s s
        ⟨404, none, []⟩ 0 (by omega) (by simp only [kvServe]; rw [h])]
    rfl
  have hpresent : ∀ (s : Store) (v : Bytes), lookupStore s ("/kv/" ++ k) = some v →
      Client.del ep kvServe s k = (removeStore s ("/kv/" ++ k), .ok ()) := by
    intro s v h
    rw [Client.del, if_neg hk,
      perform_request_step kvServe ep.1 ep.2 .delete ("/kv/" ++ k) [] s
        (removeStore s ("/kv/" ++ k)) ⟨200, none, []⟩ 0 (by omega)
        (by simp only [kvServe]; rw [h])]
    rfl
  refine ⟨fun store => ?_, fun serve store s e hperf => ?_, fun serve store s b hperf => ?_⟩
  · cases hlook : lookupStore store ("/kv/" ++ k) with
    | none =>
      have h1 := habsent store hlook
      rw [h1]
      refine ⟨rfl, ?_⟩
      show (Client.del ep kvServe store k).2 = .ok ()
      rw [h1]
    | some v =>
      have h1 := hpresent store v hlook
      rw [h1]
      refine ⟨rfl, ?_⟩
      show (Client.del ep kvServe (removeStore store ("/kv/" ++ k)) k).2 = .ok ()
      rw [habsent _ (lookupStore_remove store ("/kv/" ++ k))]
  · rw [Client.del, if_neg hk, hperf]
    by_cases hc : e.code = .NotFound <;> simp [hc]
  · rw [Client.del, if_neg hk, hperf]

/-- Witness for C4: two consecutive deletes of `"a"` on a store holding
`/kv/a` both succeed. -/
theorem del_idempotent_witness :
    (Client.del ("h", 1) kvServe [("/kv/a", [5])] "a").2 = .ok ()
    ∧ (Client.del ("h", 1) kvServe
        (Client.del ("h", 1) kvServe [("/kv/a", [5])] "a").1 "a").2 = .ok () :=
  (del_idempotent ("h", 1) "a" (by decide)).1 [("/kv/a", [5])]

/-! ### Routing helper lemmas -/

/-- With a non-empty client map, `get_client_for_key` always selects some
client (routed hit or begin() fallback). -/
theorem get_client_for_key_isSome (hN : Nat → Nat) (hK : String → Nat)
    (st : SmartState) (key : String) (h : st.clients ≠ []) :
    ∃ ep, SmartClient.get_client_for_key hN hK st key = some ep := by
  unfold SmartClient.get_client_for_key
  cases hf : findClient st.clients (ConsistentHash.get_node hN hK st.ring key) with
  | some ep => exact ⟨ep, rfl⟩
  | none =>
    cases hc : st.clients with
    | nil => exact absurd hc h
    | cons e rest => exact ⟨e.2, rfl⟩

/-- With an empty client map, `get_client_for_key` returns null. -/
theorem get_client_for_key_empty (hN : Nat → Nat) (hK : String → Nat)
    (st : SmartState) (key : String) (h : st.clients = []) :
    SmartClient.get_client_for_key hN hK st key = none := by
  unfold SmartClient.get_client_for_key
  rw [h]
  rfl

/-! ### C3: empty-key rejection -/

/-- C3 counterexample: on the topology-aware client with an empty client
map, an empty-key `put` yields `Err(NetworkError, "No nodes available")`,
not `Err(BadRequest, "Key cannot be empty")` — the routing guard fires
before key validation. -/
theorem empty_key_smart_counterexample :
    (SmartClient.put (fun _ => 0) (fun _ => 0) ⟨[], []⟩ kvServe [] "" [1]).2 =
      .error ⟨.NetworkError, "No nodes available"⟩
    ∧ (SmartClient.put (fun _ => 0) (fun _ => 0) ⟨[], []⟩ kvServe [] "" [1]).2 ≠
      .error ⟨.BadRequest, "Key cannot be empty"⟩ := by
  refine ⟨rfl, fun h => ?_⟩
  exact absurd (Except.error.inj h) (by decide)

/-- C3 (amended).  Every single-node operation called with an empty key
returns `Err(BadRequest, "Key cannot be empty")` for every server, leaving
the server state untouched (no network I/O); on the topology-aware client
the same holds whenever its client map is non-empty, while with an empty
client map the routing guard fires first and every operation instead
returns `Err(NetworkError, "No nodes available")`, still without touching
the network. -/
theorem empty_key_rejected (serve : Serve) (store : Store) (ep : Endpoint)
    (v : Bytes) (f sv : String) (n : Int) (hN : Nat → Nat) (hK : String → Nat)
    (st : SmartState) :
    Client.put ep serve store "" v = (store, .error ⟨.BadRequest, "Key cannot be empty"⟩)
    ∧ Client.get ep serve store "" = (store, .error ⟨.BadRequest, "Key cannot be empty"⟩)
    ∧ Client.del ep serve store "" = (store, .error ⟨.BadRequest, "Key cannot be empty"⟩)
    ∧ Client.patch_int ep serve store "" f n =
        (store, .error ⟨.BadRequest, "Key cannot be empty"⟩)
    ∧ Client.patch_str ep serve store "" f sv =
        (store, .error ⟨.BadRequest, "Key cannot be empty"⟩)
    ∧ (st.clients ≠ [] →
        SmartClient.put hN hK st serve store "" v =
          (store, .error ⟨.BadRequest, "Key cannot be empty"⟩)
        ∧ SmartClient.get hN hK st serve store "" =
          (store, .error ⟨.BadRequest, "Key cannot be empty"⟩)
        ∧ SmartClient.del hN hK st serve store "" =
          (store, .error ⟨.BadRequest, "Key cannot be empty"⟩)
        ∧ SmartClient.patch_int hN hK st serve store "" f n =
          (store, .error ⟨.BadRequest, "Key cannot be empty"⟩)
        ∧ SmartClient.patch_str hN hK st serve store "" f sv =
          (store, .error ⟨.BadRequest, "Key cannot be empty"⟩))
    ∧ (st.clients = [] →
        SmartClient.put hN hK st serve store "" v =
          (store, .error ⟨.NetworkError, "No nodes available"⟩)
        ∧ SmartClient.get hN hK st serve store "" =
          (store, .error ⟨.NetworkError, "No nodes available"⟩)
        ∧ SmartClient.del hN hK st serve store "" =
          (store, .error ⟨.NetworkError, "No nodes available"⟩)
        ∧ SmartClient.patch_int hN hK st serve store "" f n =
          (store, .error ⟨.NetworkError, "No nodes available"⟩)
        ∧ SmartClient.patch_str hN hK st serve store "" f sv =
          (store, .error ⟨.NetworkError, "No nodes available"⟩)) := by
  refine ⟨rfl, rfl, rfl, rfl, rfl, fun hne => ?_, fun hemp => ?_⟩
  · obtain ⟨ep', hep⟩ := get_client_for_key_isSome hN hK st "" hne
    refine ⟨?_, ?_, ?_, ?_, ?_⟩ <;>
      simp only [SmartClient.put, SmartClient.get, SmartClient.del,
        SmartClient.patch_int, SmartClient.patch_str, hep] <;> rfl
  · have hep := get_client_for_key_empty hN hK st "" hemp
    refine ⟨?_, ?_, ?_, ?_, ?_⟩ <;>
      simp only [SmartClient.put, SmartClient.get, SmartClient.del,
        SmartClient.patch_int, SmartClient.patch_str, hep]

/-- Witness for C3 (amended) at concrete inputs: a single-node put, a
topology-aware put with a one-node map, and a topology-aware put with an
empty map. -/
theorem empty_key_rejected_witness :
    Client.put ("h", 1) kvServe [] "" [1] =
      ([], .error ⟨.BadRequest, "Key cannot be empty"⟩)
    ∧ SmartClient.put (fun _ => 0) (fun _ => 0) ⟨[1], [(1, ("h", 1))]⟩ kvServe [] "" [1] =
      ([], .error ⟨.BadRequest, "Key cannot be empty"⟩)
    ∧ SmartClient.put (fun _ => 0) (fun _ => 0) ⟨[], []⟩ kvServe [] "" [1] =
      ([], .error ⟨.NetworkError, "No nodes available"⟩) :=
  ⟨(empty_key_rejected kvServe [] ("h", 1) [1] "f" "s" 0 (fun _ => 0) (fun _ => 0)
      ⟨[1], [(1, ("h", 1))]⟩).1,
   ((empty_key_rejected kvServe [] ("h", 1) [1] "f" "s" 0 (fun _ => 0) (fun _ => 0)
      ⟨[1], [(1, ("h", 1))]⟩).2.2.2.2.2.1 (by decide)).1,
   ((empty_key_rejected kvServe [] ("h", 1) [1] "f" "s" 0 (fun _ => 0) (fun _ => 0)
      ⟨[], []⟩).2.2.2.2.2.2 rfl).1⟩

/-! ### C8: topology-aware routing -/

/-- C8.  Routing: when the id returned by `ring.get_node(key)` is in the
client map, the operation is delegated to that node's client; when it is
absent but the (id-sorted) map is non-empty, the operation is delegated to
the first entry, which carries the lowest id; when the map is empty, the
operation returns `Err(NetworkError, "No nodes available")`. -/
theorem smart_routing (hN : Nat → Nat) (hK : String → Nat) (st : SmartState)
    (k : String) (v : Bytes) (serve : Serve) (store : Store) :
    (∀ ep, findClient st.clients (ConsistentHash.get_node hN hK st.ring k) = some ep →
      SmartClient.put hN hK st serve store k v = Client.put ep serve store k v)
    ∧ (findClient st.clients (ConsistentHash.get_node hN hK st.ring k) = none →
       ∀ e rest, st.clients = e :: rest →
        SmartClient.put hN hK st serve store k v = Client.put e.2 serve store k v
        ∧ (st.clients.Pairwise (fun a b => a.1 < b.1) →
           ∀ x ∈ st.clients, e.1 ≤ x.1))
    ∧ (st.clients = [] →
      SmartClient.put hN hK st serve store k v =
        (store, .error ⟨.NetworkError, "No nodes available"⟩)) := by
  refine ⟨fun ep hf => ?_, fun hf e rest hc => ?_, fun hemp => ?_⟩
  · simp only [SmartClient.put, SmartClient.get_client_for_key, hf]
  · rw [hc] at hf
    constructor
    · simp only [SmartClient.put, SmartClient.get_client_for_key, hc, hf]
    · intro hsort x hx
      rw [hc] at hsort hx
      rcases List.mem_cons.mp hx with hx | hx
      · exact le_of_eq (by rw [hx])
      · exact le_of_lt ((List.pairwise_cons.mp hsort).1 x hx)
  · rw [SmartClient.put, get_client_for_key_empty hN hK st k hemp]

/-- Witness for C8 at concrete states: a routed hit (id 1 owns the key), a
fallback to the lowest id (id 9 routed but absent, map `[2, 5]`), and the
empty map. -/
theorem smart_routing_witness :
    SmartClient.put (fun _ => 0) (fun _ => 0) ⟨[1], [(1, ("h1", 1))]⟩ kvServe [] "a" [2] =
      Client.put ("h1", 1) kvServe [] "a" [2]
    ∧ SmartClient.put (fun n => n) (fun _ => 9) ⟨[9], [(2, ("h2", 2)), (5, ("h5", 5))]⟩
        kvServe [] "a" [2] = Client.put ("h2", 2) kvServe [] "a" [2]
    ∧ SmartClient.put (fun _ => 0) (fun _ => 0) ⟨[], []⟩ kvServe [] "a" [2] =
      ([], .error ⟨.NetworkError, "No nodes available"⟩) :=
  ⟨(smart_routing (fun _ => 0) (fun _ => 0) ⟨[1], [(1, ("h1", 1))]⟩ "a" [2] kvServe []).1
      ("h1", 1) (by decide),
   ((smart_routing (fun n => n) (fun _ => 9) ⟨[9], [(2, ("h2", 2)), (5, ("h5", 5))]⟩
      "a" [2] kvServe []).2.1 (by decide) (2, ("h2", 2)) [(5, ("h5", 5))] rfl).1,
   (smart_routing (fun _ => 0) (fun _ => 0) ⟨[], []⟩ "a" [2] kvServe []).2.2 rfl⟩

/-! ### C10: the Location parser -/

/-- A non-empty `dropWhile (· ≠ ':')` residue witnesses a `':'` in the list. -/
theorem colon_mem_of_dropWhile (xs : List Char) (c : Char) (tl : List Char)
    (h : xs.dropWhile (fun c => c ≠ ':') = c :: tl) : ':' ∈ xs := by
  induction xs with
  | nil => simp [List.dropWhile] at h
  | cons a rest ih =>
    by_cases ha : a = ':'
    · rw [ha]; exact List.mem_cons_self ..
    · rw [List.dropWhile_cons_of_pos (by simpa using ha)] at h
      exact List.mem_cons_of_mem a (ih h)

/-- Dropping with `(· ≠ ':')` jumps over a colon-free block to the first `':'`. -/
theorem dropWhile_colon_append (host tail : List Char) (h : ':' ∉ host) :
    (host ++ ':' :: tail).dropWhile (fun c => c ≠ ':') = ':' :: tail := by
  induction host with
  | nil => simp [List.dropWhile]
  | cons a rest ih =>
    have ha : a ≠ ':' := fun e => h (e ▸ List.mem_cons_self ..)
    rw [List.cons_append, List.dropWhile_cons_of_pos (by simpa using ha)]
    exact ih (fun m => h (List.mem_cons_of_mem a m))

/-- C10.  The redirect `Location` parser accepts only strings that begin
with `http://` and contain a `':'` after the scheme: a `Location` of the
form `http://<rest>` with no `':'` in `<rest>` is rejected, as is one whose
port segment (between the first `':'` and the following `'/'`) `std::stoi`
cannot parse; and when the parser rejects, a 307 carrying that `Location`
is answered with `Err(ServerError, "Invalid Redirect Location")`. -/
theorem parse_location_requires_scheme_and_port :
    (∀ (loc h : List Char) (p : Int) (t : List Char),
      parse_location loc = some (h, p, t) →
      loc.take 7 = "http://".data ∧ ':' ∈ loc.drop 7)
    ∧ (∀ rest : List Char, ':' ∉ rest →
      parse_location ("http://".data ++ rest) = none)
    ∧ (∀ host tail : List Char, ':' ∉ host →
      stoiOpt (tail.takeWhile (fun c => c ≠ '/')) = none →
      parse_location ("http://".data ++ (host ++ ':' :: tail)) = none)
    ∧ (∀ (serve : Serve) (hst : String) (port : Int) (m : Method)
        (target : String) (body : Bytes) (store s' : Store) (loc : String) (b : Bytes),
      serve store (hst, port) m target body = (s', .response ⟨307, some loc, b⟩) →
      parse_location loc.data = none →
      perform_request serve hst port m target body store 0 =
        (s', .error ⟨.ServerError, "Invalid Redirect Location"⟩)) := by
  refine ⟨fun loc h p t hp => ?_, fun rest hrest => ?_,
    fun host tail hhost hport => ?_, fun serve hst port m target body store s' loc b hs hp => ?_⟩
  · unfold parse_location at hp
    by_cases hsch : loc.take 7 = "http://".data
    · rw [if_pos hsch] at hp
      refine ⟨hsch, ?_⟩
      cases hd : (loc.drop 7).dropWhile (fun c => c ≠ ':') with
      | nil => rw [hd] at hp; exact Option.noConfusion hp
      | cons c tl => exact colon_mem_of_dropWhile _ c tl hd
    · rw [if_neg hsch] at hp
      exact Option.noConfusion hp
  · rw [parse_location,
      if_pos (show List.take 7 ("http://".data ++ rest) = "http://".data from rfl)]
    show (match rest.dropWhile (fun c => c ≠ ':') with
      | [] => none
      | _ :: tail =>
        match stoiOpt (tail.takeWhile (fun c => c ≠ '/')) with
        | none => none
        | some p =>
          some (rest.takeWhile (fun c => c ≠ ':'), p,
            if tail.dropWhile (fun c => c ≠ '/') = [] then "/".data
            else tail.dropWhile (fun c => c ≠ '/'))) = none
    have hnil : rest.dropWhile (fun c => c ≠ ':') = [] := by
      rw [List.dropWhile_eq_nil_iff]
      intro x hx
      simpa using fun e : x = ':' => hrest (e ▸ hx)
    rw [hnil]
  · rw [parse_location,
      if_pos (show List.take 7 ("http://".data ++ (host ++ ':' :: tail)) = "http://".data
        from rfl)]
    show (match (host ++ ':' :: tail).dropWhile (fun c => c ≠ ':') with
      | [] => none
      | _ :: tl =>
        match stoiOpt (tl.takeWhile (fun c => c ≠ '/')) with
        | none => none
        | some p =>
          some ((host ++ ':' :: tail).takeWhile (fun c => c ≠ ':'), p,
            if tl.dropWhile (fun c => c ≠ '/') = [] then "/".data
            else tl.dropWhile (fun c => c ≠ '/'))) = none
    rw [dropWhile_colon_append host tail hhost]
    simp only [hport]
  · rw [perform_request_step serve hst port m target body store s'
      ⟨307, some loc, b⟩ 0 (by omega) hs]
    simp [hp]

/-- Witness for C10: `http://nocolonhere/path` (no port separator) and
`http://h:x/p` (unparseable port) are both rejected, and a 307 carrying the
former is answered with "Invalid Redirect Location". -/
theorem parse_location_requires_scheme_and_port_witness :
    parse_location ("http://".data ++ "nocolonhere/path".data) = none
    ∧ parse_location ("http://".data ++ ("h".data ++ ':' :: "x/p".data)) = none
    ∧ perform_request
        (fun s _ _ _ _ => (s, .response ⟨307, some "http://nocolonhere/path", []⟩))
        "h" 1 .get "/t" [] [] 0 =
        ([], .error ⟨.ServerError, "Invalid Redirect Location"⟩) :=
  ⟨parse_location_requires_scheme_and_port.2.1 "nocolonhere/path".data (by decide),
   parse_location_requires_scheme_and_port.2.2.1 "h".data "x/p".data (by decide) (by decide),
   parse_location_requires_scheme_and_port.2.2.2
     (fun s _ _ _ _ => (s, .response ⟨307, some "http://nocolonhere/path", []⟩))
     "h" 1 .get "/t" [] [] [] "http://nocolonhere/path" [] rfl (by decide)⟩

/-! ### C1: topology refresh atomicity (violated) -/

/-- C1.  The code violates refresh atomicity: with node 1 installed, a
refresh whose `/cluster/map` body parses as
`{"peers": ["x"]}` (a peers entry that is not an object, so nlohmann's
`value()` throws while extracting peer fields) returns
`Err(NetworkError, <detail>)` — presenting as an ordinary parse failure —
yet the previously installed ring and client map have already been cleared
in place, not left unchanged. -/
theorem refresh_clobbers_on_peer_type_error :
    SmartClient.refresh_topology_unsafe ⟨[1], [(1, ("h", 8080))]⟩ (.ok [])
        (fun _ => some (.obj [("peers", .arr [.str "x"])])) =
      (⟨[], []⟩, .error ⟨.NetworkError, "cannot use value() with a non-object"⟩)
    ∧ (⟨[1], [(1, ("h", 8080))]⟩ : SmartState) ≠ ⟨[], []⟩ :=
  ⟨rfl, by decide⟩

/-! ### C9: peer-field defaults in topology refresh -/

/-- C9.  During topology refresh a peer object with missing `"host"` and
`"http_port"` fields is not rejected: its client is created with default
host `"127.0.0.1"` and port 8080; a peer object with a missing `"id"`
field gets default id 0 and is therefore silently skipped. -/
theorem refresh_peer_defaults (flds flds2 : List (String × Json)) (n : Int)
    (st : SmartState) (hostv : String) (np : Int)
    (h1 : lookupField flds "id" = some (.num n))
    (h2 : lookupField flds "host" = none)
    (h3 : lookupField flds "http_port" = none)
    (h4 : intToU32 n ≠ 0)
    (g1 : lookupField flds2 "id" = none)
    (g2 : lookupField flds2 "host" = some (.str hostv))
    (g3 : lookupField flds2 "http_port" = some (.num np)) :
    SmartClient.refresh_topology_unsafe st (.ok [])
        (fun _ => some (.obj [("peers", .arr [.obj flds])])) =
      (⟨[intToU32 n], [(intToU32 n, ("127.0.0.1", 8080))]⟩, .ok ())
    ∧ SmartClient.refresh_topology_unsafe st (.ok [])
        (fun _ => some (.obj [("peers", .arr [.obj flds2])])) =
      (⟨[], []⟩, .ok ()) := by
  constructor
  · show (match getPeersArray (.obj [("peers", .arr [.obj flds])]) with
      | none => ((⟨[], []⟩ : SmartState), Except.ok ())
      | some ps => addPeers ⟨[], []⟩ ps) = _
    show addPeers ⟨[], []⟩ [.obj flds] = _
    simp only [addPeers, extractPeer, h1, h2, h3]
    rw [if_pos h4]
    simp [ConsistentHash.add_node, insertClient, addPeers]
  · show (match getPeersArray (.obj [("peers", .arr [.obj flds2])]) with
      | none => ((⟨[], []⟩ : SmartState), Except.ok ())
      | some ps => addPeers ⟨[], []⟩ ps) = _
    show addPeers ⟨[], []⟩ [.obj flds2] = _
    simp only [addPeers, extractPeer, g1, g2, g3]
    simp [addPeers]

/-- Witness for C9: a peer `{"id": 5}` yields node 5 at
`127.0.0.1:8080`; a peer `{"host": "hh", "http_port": 9}` (no id) is
skipped. -/
theorem refresh_peer_defaults_witness :
    SmartClient.refresh_topology_unsafe ⟨[], []⟩ (.ok [])
        (fun _ => some (.obj [("peers", .arr [.obj [("id", .num 5)]])])) =
      (⟨[intToU32 5], [(intToU32 5, ("127.0.0.1", 8080))]⟩, .ok ())
    ∧ SmartClient.refresh_topology_unsafe ⟨[], []⟩ (.ok [])
        (fun _ => some (.obj [("peers", .arr
          [.obj [("host", .str "hh"), ("http_port", .num 9)]])])) =
      (⟨[], []⟩, .ok ()) :=
  refresh_peer_defaults [("id", .num 5)] [("host", .str "hh"), ("http_port", .num 9)]
    5 ⟨[], []⟩ "hh" 9 rfl rfl rfl (by decide) rfl rfl rfl

end Lite3
